import Mathlib

/-!
Shallow embedding of `src/secp256k1_wrapper.c` (secp256k1-wrapper).

Buffers are `List Nat` (byte lists); a caller-supplied pointer is an
`Option (List Nat)` holding the buffer's contents at entry (`none` = NULL).
The opaque libsecp256k1 primitive is a record of pure functions
(`CurveEnv`); the platform random source is a list of draw outcomes, one
entry per `secp256k1_wrapper_fill_random` call, `none` meaning the call
fails (in which case the destination buffer keeps its previous contents,
as `getrandom` writes nothing on error).

The wrapper functions return a record carrying the C return code together
with the final contents of every buffer the claims speak about: the two
caller output buffers, the internal `privkey` candidate buffer and the
internal `randomize` seed buffer (their contents at the moment the
function returns), plus a flag recording whether a context was created
and a count of `fill_random` calls made.  `generate_keys` returns
`Option` of that record: `none` only when the modelled draw list is
exhausted before the candidate loop decides (fuel), which corresponds to
no return of the C function.
-/

namespace Secp256k1Wrapper

/-- PRIVKEY_SIZE from the header. -/
def PRIVKEY_SIZE : Nat := 32

/-- PUBKEY_COMPRESSION_SIZE from the header. -/
def PUBKEY_COMPRESSION_SIZE : Nat := 33

/-- PUBKEY_UNCOMPRESSION_SIZE from the header. -/
def PUBKEY_UNCOMPRESSION_SIZE : Nat := 65

/-- `secure_memzero(p, n)`: the buffer's contents after the wipe. -/
def secure_memzero (n : Nat) : List Nat := List.replicate n 0

/-- The opaque libsecp256k1 primitive, as pure functions.
`ctx_create_ok` models whether `secp256k1_context_create` succeeds;
`ctx_randomize` is the success predicate of `secp256k1_context_randomize`
on a seed; `seckey_verify` is `secp256k1_ec_seckey_verify`;
`pubkey_create` is `secp256k1_ec_pubkey_create`, its `Nat` result an
opaque stand-in for the internal `secp256k1_pubkey` struct;
`pubkey_serialize` is `secp256k1_ec_pubkey_serialize`, taking the opaque
point and the compression flag and returning the serialized bytes. -/
structure CurveEnv where
  ctx_create_ok : Bool
  ctx_randomize : List Nat → Bool
  seckey_verify : List Nat → Bool
  pubkey_create : List Nat → Option Nat
  pubkey_serialize : Nat → Bool → Option (List Nat)

/-- Result of one run of `secp256k1_wrapper_generate_keys`. -/
structure GenResult where
  ret : Int
  privkey_out : Option (List Nat)
  pubkey_out : Option (List Nat)
  privkey_buf : List Nat
  randomize_buf : List Nat
  ctx_created : Bool
  rand_calls : Nat
  deriving DecidableEq, Repr

/-- The candidate do-while loop of `secp256k1_wrapper_generate_keys`
(lines 127-133): draw into the internal `privkey` buffer, exit the loop
when `secp256k1_ec_seckey_verify` accepts; if a draw fails the function
returns -3.  Returns `(accepted?, final buffer contents, fill_random
calls made so far)`; `none` when the modelled draws run out. -/
def gen_loop (env : CurveEnv) (draws : List (Option (List Nat)))
    (buf : List Nat) (calls : Nat) : Option (Bool × List Nat × Nat) :=
  match draws with
  | [] => none
  | d :: rest =>
    match d with
    | none => some (false, buf, calls + 1)
    | some bytes =>
      if env.seckey_verify bytes then some (true, bytes, calls + 1)
      else gen_loop env rest bytes (calls + 1)

/-- Lines 135-157 of `secp256k1_wrapper_generate_keys`: public-key
creation, serialization, and the final copy-out, entered with the
accepted candidate `k`.  `pk0`/`pb0` are the caller buffers' entry
contents, `flags` the compression flag, `rc` the fill_random calls so
far. -/
def gen_finish (env : CurveEnv) (k : List Nat) (pk0 pb0 : List Nat)
    (flags : Bool) (rc : Nat) : GenResult :=
  match env.pubkey_create k with
  | none =>
    { ret := -5, privkey_out := some pk0, pubkey_out := some pb0,
      privkey_buf := secure_memzero PRIVKEY_SIZE,
      randomize_buf := secure_memzero PRIVKEY_SIZE,
      ctx_created := true, rand_calls := rc }
  | some P =>
    match env.pubkey_serialize P flags with
    | none =>
      { ret := -5, privkey_out := some pk0, pubkey_out := some pb0,
        privkey_buf := secure_memzero PRIVKEY_SIZE,
        randomize_buf := secure_memzero PRIVKEY_SIZE,
        ctx_created := true, rand_calls := rc }
    | some ser =>
      { ret := 0, privkey_out := some k, pubkey_out := some ser,
        privkey_buf := secure_memzero PRIVKEY_SIZE,
        randomize_buf := secure_memzero PRIVKEY_SIZE,
        ctx_created := true, rand_calls := rc }

/-- `secp256k1_wrapper_generate_keys(privkey_out, pubkey_out, compressed)`
(lines 93-158).  `draws` feeds the successive `fill_random` calls
(first the context-randomization seed, then the candidate loop);
`privkey_buf0` and `randomize_buf0` are the entry (uninitialized)
contents of the two internal stack buffers. -/
def secp256k1_wrapper_generate_keys (env : CurveEnv)
    (draws : List (Option (List Nat)))
    (privkey_out pubkey_out : Option (List Nat)) (compressed : Int)
    (privkey_buf0 randomize_buf0 : List Nat) : Option GenResult :=
  if privkey_out = none ∨ pubkey_out = none ∨ (compressed ≠ 0 ∧ compressed ≠ 1) then
    some { ret := -1, privkey_out := privkey_out, pubkey_out := pubkey_out,
           privkey_buf := privkey_buf0, randomize_buf := randomize_buf0,
           ctx_created := false, rand_calls := 0 }
  else
    let flags : Bool := compressed != 0
    if env.ctx_create_ok = false then
      some { ret := -2, privkey_out := privkey_out, pubkey_out := pubkey_out,
             privkey_buf := privkey_buf0, randomize_buf := randomize_buf0,
             ctx_created := false, rand_calls := 0 }
    else
      match draws with
      | [] => none
      | d0 :: rest =>
        match d0 with
        | none =>
          some { ret := -3, privkey_out := privkey_out, pubkey_out := pubkey_out,
                 privkey_buf := privkey_buf0, randomize_buf := randomize_buf0,
                 ctx_created := true, rand_calls := 1 }
        | some seed =>
          if env.ctx_randomize seed = false then
            some { ret := -2, privkey_out := privkey_out, pubkey_out := pubkey_out,
                   privkey_buf := privkey_buf0,
                   randomize_buf := secure_memzero PRIVKEY_SIZE,
                   ctx_created := true, rand_calls := 1 }
          else
            match gen_loop env rest privkey_buf0 1 with
            | none => none
            | some (false, buf, calls) =>
              some { ret := -3, privkey_out := privkey_out, pubkey_out := pubkey_out,
                     privkey_buf := buf,
                     randomize_buf := secure_memzero PRIVKEY_SIZE,
                     ctx_created := true, rand_calls := calls }
            | some (true, k, calls) =>
              match privkey_out, pubkey_out with
              | some pk0, some pb0 =>
                some (gen_finish env k pk0 pb0 flags calls)
              | _, _ => none

/-- Result of one run of `secp256k1_wrapper_derive_pubkey`. -/
structure DeriveResult where
  ret : Int
  privkey_final : Option (List Nat)
  pubkey_out : Option (List Nat)
  ctx_created : Bool
  deriving DecidableEq, Repr

/-- `secp256k1_wrapper_derive_pubkey(privkey, pubkey_out, compressed)`
(lines 161-194).  `privkey` is the caller's (const) private-key buffer;
the result records its contents at return in `privkey_final`. -/
def secp256k1_wrapper_derive_pubkey (env : CurveEnv)
    (privkey pubkey_out : Option (List Nat)) (compressed : Int) : DeriveResult :=
  if privkey = none ∨ pubkey_out = none ∨ (compressed ≠ 0 ∧ compressed ≠ 1) then
    { ret := -1, privkey_final := privkey, pubkey_out := pubkey_out,
      ctx_created := false }
  else
    let flags : Bool := compressed != 0
    if env.ctx_create_ok = false then
      { ret := -2, privkey_final := privkey, pubkey_out := pubkey_out,
        ctx_created := false }
    else
      match privkey with
      | none =>
        { ret := -1, privkey_final := privkey, pubkey_out := pubkey_out,
          ctx_created := false }
      | some k =>
        if env.seckey_verify k = false then
          { ret := -5, privkey_final := privkey, pubkey_out := pubkey_out,
            ctx_created := true }
        else
          match env.pubkey_create k with
          | none =>
            { ret := -5, privkey_final := privkey, pubkey_out := pubkey_out,
              ctx_created := true }
          | some P =>
            match env.pubkey_serialize P flags with
            | none =>
              { ret := -5, privkey_final := privkey, pubkey_out := pubkey_out,
                ctx_created := true }
            | some ser =>
              { ret := 0, privkey_final := privkey, pubkey_out := some ser,
                ctx_created := true }

/-- `errno` value ENOSYS on Linux. -/
def ENOSYS : Nat := 38

/-- Outcome of the `getrandom(data, size, 0)` call on the
Linux/FreeBSD branch: `ok res` for a nonnegative return value `res`
(bytes written), `err e` for a -1 return with `errno = e`. -/
inductive GetrandomResult where
  | ok : Nat → GetrandomResult
  | err : Nat → GetrandomResult
  deriving DecidableEq, Repr

/-- The /dev/urandom partial-read loop (lines 212-220): each entry of
`reads` is one `read` return value; a value ≤ 0 aborts with 0, the loop
returns 1 once `off` reaches `size`.  `none` when `reads` is exhausted
with the buffer still unfilled (fuel). -/
def urandom_loop (reads : List Int) (off size : Nat) : Option Nat :=
  match reads with
  | [] => if off < size then none else some 1
  | r :: rest =>
    if off < size then
      if r ≤ 0 then some 0 else urandom_loop rest (off + r.toNat) size
    else some 1

/-- The Linux/FreeBSD branch of `secp256k1_wrapper_fill_random`
(lines 204-224): `g` is the `getrandom` outcome, `open_ok` whether
`open("/dev/urandom")` succeeds, `reads` the successive `read` return
values of the fallback loop. -/
def secp256k1_wrapper_fill_random (g : GetrandomResult) (open_ok : Bool)
    (reads : List Int) (size : Nat) : Option Nat :=
  match g with
  | .err e =>
    if e = ENOSYS then
      if open_ok = false then some 0
      else urandom_loop reads 0 size
    else
      some 0
  | .ok res =>
    if res = size then some 1 else some 0

end Secp256k1Wrapper

namespace Secp256k1Wrapper

/-! ### Concrete fixtures used to instantiate the theorems -/

/-- The all-zero 32-byte key (not a valid scalar). -/
def zeros32 : List Nat := List.replicate 32 0

/-- The scalar-1 key: 31 zero bytes then 0x01. -/
def key1 : List Nat := List.replicate 31 0 ++ [1]

/-- A concrete randomization seed. -/
def seedA : List Nat := List.replicate 32 7

/-- A concrete rejected-candidate value (32 bytes of 0xAA). -/
def candAA : List Nat := List.replicate 32 170

/-- A well-behaved curve environment: every primitive succeeds, and the
validity predicate rejects exactly the all-zero key. -/
def envOk : CurveEnv :=
  { ctx_create_ok := true
    ctx_randomize := fun _ => true
    seckey_verify := fun k => k != zeros32
    pubkey_create := fun k => some (k.headD 0)
    pubkey_serialize := fun P flags => some (if flags then [2, P] else [4, P]) }

/-- An environment whose `secp256k1_ec_pubkey_create` always fails
(validity check accepts everything). -/
def envCreateFail : CurveEnv :=
  { ctx_create_ok := true
    ctx_randomize := fun _ => true
    seckey_verify := fun _ => true
    pubkey_create := fun _ => none
    pubkey_serialize := fun _ _ => none }

/-- An environment whose `secp256k1_ec_pubkey_serialize` always fails. -/
def envSerFail : CurveEnv :=
  { ctx_create_ok := true
    ctx_randomize := fun _ => true
    seckey_verify := fun _ => true
    pubkey_create := fun _ => some 0
    pubkey_serialize := fun _ _ => none }

/-- An environment whose validity predicate rejects every candidate. -/
def envRejectAll : CurveEnv :=
  { ctx_create_ok := true
    ctx_randomize := fun _ => true
    seckey_verify := fun _ => false
    pubkey_create := fun _ => none
    pubkey_serialize := fun _ _ => none }

/-- The result record of the successful run
`secp256k1_wrapper_generate_keys envOk [some seedA, some key1]
(some zeros32) (some zeros32) 1 zeros32 zeros32`. -/
def stGenOk : GenResult :=
  { ret := 0, privkey_out := some key1, pubkey_out := some [2, 0],
    privkey_buf := secure_memzero PRIVKEY_SIZE,
    randomize_buf := secure_memzero PRIVKEY_SIZE,
    ctx_created := true, rand_calls := 2 }

/-- The result record of the failed run
`secp256k1_wrapper_generate_keys envOk [none] (some candAA)
(some zeros32) 0 zeros32 zeros32` (randomness failure on the seed draw). -/
def stGenRandFail : GenResult :=
  { ret := -3, privkey_out := some candAA, pubkey_out := some zeros32,
    privkey_buf := zeros32, randomize_buf := zeros32,
    ctx_created := true, rand_calls := 1 }

/-! ### Helper lemmas -/

theorem gen_loop_accepted (env : CurveEnv) :
    ∀ (draws : List (Option (List Nat))) (buf : List Nat) (calls : Nat)
      (k : List Nat) (n : Nat),
      gen_loop env draws buf calls = some (true, k, n) →
      env.seckey_verify k = true := by
  intro draws
  induction draws with
  | nil => intro buf calls k n h; simp [gen_loop] at h
  | cons d rest ih =>
    intro buf calls k n h
    unfold gen_loop at h
    cases d with
    | none => simp at h
    | some bytes =>
      simp only [] at h
      split at h
      · rename_i hv
        simp at h
        obtain ⟨hk, -⟩ := h
        subst hk
        exact hv
      · exact ih bytes (calls + 1) k n h

theorem generate_success_inv (env : CurveEnv)
    (draws : List (Option (List Nat))) (pk pb : Option (List Nat))
    (c : Int) (pb0 rb0 : List Nat) (st : GenResult)
    (h : secp256k1_wrapper_generate_keys env draws pk pb c pb0 rb0 = some st)
    (h0 : st.ret = 0) :
    env.ctx_create_ok = true ∧ ¬(c ≠ 0 ∧ c ≠ 1) ∧
    ∃ k P ser, env.seckey_verify k = true ∧
      env.pubkey_create k = some P ∧
      env.pubkey_serialize P (c != 0) = some ser ∧
      st.privkey_out = some k ∧ st.pubkey_out = some ser := by
  unfold secp256k1_wrapper_generate_keys at h
  split at h
  · simp only [Option.some.injEq] at h
    subst h; simp at h0
  · rename_i hguard
    have hguard2 : ¬(c ≠ 0 ∧ c ≠ 1) := fun hc => hguard (Or.inr (Or.inr hc))
    split at h
    · simp only [Option.some.injEq] at h
      subst h; simp at h0
    · rename_i hctx
      split at h
      · exact absurd h (by simp)
      · rename_i d0 rest
        split at h
        · simp only [Option.some.injEq] at h
          subst h; simp at h0
        · rename_i seed
          split at h
          · simp only [Option.some.injEq] at h
            subst h; simp at h0
          · split at h
            · exact absurd h (by simp)
            · rename_i buf calls
              simp only [Option.some.injEq] at h
              subst h; simp at h0
            · rename_i k calls hloop
              split at h
              · rename_i pk0 pb0' hpk hpb
                simp only [Option.some.injEq] at h
                subst h
                refine ⟨by simpa using hctx, hguard2, k, ?_⟩
                have hv := gen_loop_accepted env _ _ _ _ _ hloop
                unfold gen_finish
                split
                · rename_i hP
                  exfalso; revert h0
                  simp [gen_finish, hP]
                · rename_i P hP
                  split
                  · rename_i hs
                    exfalso; revert h0
                    simp [gen_finish, hP, hs]
                  · rename_i ser hs
                    exact ⟨P, ser, hv, hP, hs, by simp [gen_finish, hP, hs], by simp [gen_finish, hP, hs]⟩
              · exact absurd h (by simp)

theorem derive_pubkey_success_of (env : CurveEnv) (k b : List Nat) (c : Int)
    (P : Nat) (ser : List Nat)
    (hm : ¬(c ≠ 0 ∧ c ≠ 1)) (hctx : env.ctx_create_ok = true)
    (hv : env.seckey_verify k = true) (hP : env.pubkey_create k = some P)
    (hs : env.pubkey_serialize P (c != 0) = some ser) :
    secp256k1_wrapper_derive_pubkey env (some k) (some b) c =
      { ret := 0, privkey_final := some k, pubkey_out := some ser,
        ctx_created := true } := by
  simp [secp256k1_wrapper_derive_pubkey, hm, hctx, hv, hP, hs]

/-- C1: whenever `secp256k1_wrapper_generate_keys` returns success (0),
the 32-byte private key written to `privkey_out` is one that
`secp256k1_ec_seckey_verify` accepts: the candidate loop redraws until
the predicate accepts, and only an accepted candidate is copied to the
caller. -/
theorem generate_keys_success_privkey_is_valid (env : CurveEnv)
    (draws : List (Option (List Nat))) (pk pb : Option (List Nat))
    (c : Int) (pb0 rb0 : List Nat) (st : GenResult)
    (h : secp256k1_wrapper_generate_keys env draws pk pb c pb0 rb0 = some st)
    (h0 : st.ret = 0) :
    ∃ k, st.privkey_out = some k ∧ env.seckey_verify k = true := by
  obtain ⟨-, -, k, P, ser, hv, -, -, hpk, -⟩ :=
    generate_success_inv env draws pk pb c pb0 rb0 st h h0
  exact ⟨k, hpk, hv⟩

theorem generate_keys_success_privkey_is_valid_witness :
    ∃ k, stGenOk.privkey_out = some k ∧ envOk.seckey_verify k = true :=
  generate_keys_success_privkey_is_valid envOk [some seedA, some key1]
    (some zeros32) (some zeros32) 1 zeros32 zeros32 stGenOk
    (by decide) (by decide)

/-- C4: round-trip law: whenever `secp256k1_wrapper_generate_keys`
returns 0, calling `secp256k1_wrapper_derive_pubkey` on the returned
private key with the same compression mode succeeds and writes exactly
the public-key bytes the generation call wrote. -/
theorem generate_derive_roundtrip (env : CurveEnv)
    (draws : List (Option (List Nat))) (pk pb : Option (List Nat))
    (c : Int) (pb0 rb0 b : List Nat) (st : GenResult) (k : List Nat)
    (h : secp256k1_wrapper_generate_keys env draws pk pb c pb0 rb0 = some st)
    (h0 : st.ret = 0) (hk : st.privkey_out = some k) :
    (secp256k1_wrapper_derive_pubkey env (some k) (some b) c).ret = 0 ∧
    (secp256k1_wrapper_derive_pubkey env (some k) (some b) c).pubkey_out =
      st.pubkey_out := by
  obtain ⟨hctx, hm, k', P, ser, hv, hP, hs, hpk, hpb⟩ :=
    generate_success_inv env draws pk pb c pb0 rb0 st h h0
  rw [hk] at hpk
  have hkk : k' = k := Option.some.inj hpk.symm
  rw [hkk] at hv hP
  rw [derive_pubkey_success_of env k b c P ser hm hctx hv hP hs]
  exact ⟨rfl, by rw [hpb]⟩

theorem generate_derive_roundtrip_witness :
    (secp256k1_wrapper_derive_pubkey envOk (some key1) (some zeros32) 1).ret = 0 ∧
    (secp256k1_wrapper_derive_pubkey envOk (some key1) (some zeros32) 1).pubkey_out =
      stGenOk.pubkey_out :=
  generate_derive_roundtrip envOk [some seedA, some key1] (some zeros32)
    (some zeros32) 1 zeros32 zeros32 zeros32 stGenOk key1
    (by decide) (by decide) (by decide)

/-- C8: `secp256k1_wrapper_derive_pubkey` never writes to the
caller-supplied private-key buffer: on every path (error and success
alike) its contents at return equal its contents at entry, and it is
never wiped. -/
theorem derive_pubkey_never_writes_privkey (env : CurveEnv)
    (privkey pubkey_out : Option (List Nat)) (compressed : Int) :
    (secp256k1_wrapper_derive_pubkey env privkey pubkey_out compressed).privkey_final
      = privkey := by
  simp only [secp256k1_wrapper_derive_pubkey]
  repeat' split
  all_goals rfl

/-- C6: for either function, a null buffer pointer or a `compressed`
value outside {0, 1} yields return code -1 with no context created, no
randomness drawn, and every buffer left exactly as it was at entry. -/
theorem invalid_argument_rejected_before_resources (env : CurveEnv)
    (draws : List (Option (List Nat))) (pk pb : Option (List Nat))
    (c : Int) (pb0 rb0 : List Nat)
    (h : pk = none ∨ pb = none ∨ (c ≠ 0 ∧ c ≠ 1)) :
    secp256k1_wrapper_generate_keys env draws pk pb c pb0 rb0 =
      some { ret := -1, privkey_out := pk, pubkey_out := pb,
             privkey_buf := pb0, randomize_buf := rb0,
             ctx_created := false, rand_calls := 0 } ∧
    secp256k1_wrapper_derive_pubkey env pk pb c =
      { ret := -1, privkey_final := pk, pubkey_out := pb,
        ctx_created := false } := by
  constructor
  · unfold secp256k1_wrapper_generate_keys; rw [if_pos h]
  · unfold secp256k1_wrapper_derive_pubkey; rw [if_pos h]

theorem invalid_argument_rejected_before_resources_witness :
    secp256k1_wrapper_generate_keys envOk [] none (some zeros32) 1 zeros32 zeros32 =
      some { ret := -1, privkey_out := none, pubkey_out := some zeros32,
             privkey_buf := zeros32, randomize_buf := zeros32,
             ctx_created := false, rand_calls := 0 } ∧
    secp256k1_wrapper_derive_pubkey envOk none (some zeros32) 1 =
      { ret := -1, privkey_final := none, pubkey_out := some zeros32,
        ctx_created := false } :=
  invalid_argument_rejected_before_resources envOk [] none (some zeros32) 1
    zeros32 zeros32 (Or.inl rfl)

/-- C5: `secp256k1_wrapper_derive_pubkey` is deterministic: with the same
private key and compression mode (and the same library behavior) the
return code is the same regardless of the output buffer's prior
contents, and on success the written public-key bytes are identical. -/
theorem derive_pubkey_deterministic (env : CurveEnv) (k b1 b2 : List Nat)
    (c : Int) :
    (secp256k1_wrapper_derive_pubkey env (some k) (some b1) c).ret =
      (secp256k1_wrapper_derive_pubkey env (some k) (some b2) c).ret ∧
    ((secp256k1_wrapper_derive_pubkey env (some k) (some b1) c).ret = 0 →
      (secp256k1_wrapper_derive_pubkey env (some k) (some b1) c).pubkey_out =
        (secp256k1_wrapper_derive_pubkey env (some k) (some b2) c).pubkey_out) := by
  by_cases hm : (c ≠ 0 ∧ c ≠ 1)
  · simp [secp256k1_wrapper_derive_pubkey, hm.1, hm.2]
  · cases hctx : env.ctx_create_ok with
    | false => simp [secp256k1_wrapper_derive_pubkey, hm, hctx]
    | true =>
      cases hv : env.seckey_verify k with
      | false => simp [secp256k1_wrapper_derive_pubkey, hm, hctx, hv]
      | true =>
        cases hP : env.pubkey_create k with
        | none => simp [secp256k1_wrapper_derive_pubkey, hm, hctx, hv, hP]
        | some P =>
          cases hs : env.pubkey_serialize P (c != 0) with
          | none => simp [secp256k1_wrapper_derive_pubkey, hm, hctx, hv, hP, hs]
          | some ser => simp [secp256k1_wrapper_derive_pubkey, hm, hctx, hv, hP, hs]

theorem derive_pubkey_deterministic_witness :
    (secp256k1_wrapper_derive_pubkey envOk (some key1) (some zeros32) 1).ret =
      (secp256k1_wrapper_derive_pubkey envOk (some key1) (some key1) 1).ret ∧
    (secp256k1_wrapper_derive_pubkey envOk (some key1) (some zeros32) 1).pubkey_out =
      (secp256k1_wrapper_derive_pubkey envOk (some key1) (some key1) 1).pubkey_out :=
  ⟨(derive_pubkey_deterministic envOk key1 zeros32 key1 1).1,
   (derive_pubkey_deterministic envOk key1 zeros32 key1 1).2 (by decide)⟩

/-- C2 (code bug): after the candidate loop rejects a draw and the next
draw fails, `secp256k1_wrapper_generate_keys` returns -3 with the
rejected candidate's bytes still in the internal `privkey` buffer — the
-3 exit at lines 129-132 performs no `secure_memzero`, unlike every
other secret-holding exit path. -/
theorem generate_keys_candidate_survives_randomness_failure :
    (secp256k1_wrapper_generate_keys envRejectAll
        [some seedA, some candAA, none]
        (some zeros32) (some zeros32) 1 zeros32 zeros32).map GenResult.ret
      = some (-3) ∧
    (secp256k1_wrapper_generate_keys envRejectAll
        [some seedA, some candAA, none]
        (some zeros32) (some zeros32) 1 zeros32 zeros32).map GenResult.privkey_buf
      = some candAA ∧
    candAA ≠ secure_memzero PRIVKEY_SIZE := by decide

/-- C3 counterexample: the error code `secp256k1_wrapper_derive_pubkey`
returns for an invalid caller-supplied private key (the all-zero key) is
-5, the very same code it returns when public-key creation fails and
when serialization fails — so the claimed distinct `InvalidKey` code
does not exist. -/
theorem derive_invalid_key_code_not_distinct :
    (secp256k1_wrapper_derive_pubkey envOk (some zeros32) (some zeros32) 1).ret = -5 ∧
    (secp256k1_wrapper_derive_pubkey envCreateFail (some key1) (some zeros32) 1).ret = -5 ∧
    (secp256k1_wrapper_derive_pubkey envSerFail (some key1) (some zeros32) 1).ret = -5 := by
  decide

theorem gen_loop_all_draws_ok_accepts (env : CurveEnv) :
    ∀ (draws : List (Option (List Nat))) (buf : List Nat) (calls : Nat)
      (ok : Bool) (buf' : List Nat) (calls' : Nat),
      (∀ d ∈ draws, d ≠ none) →
      gen_loop env draws buf calls = some (ok, buf', calls') →
      ok = true := by
  intro draws
  induction draws with
  | nil => intro buf calls ok buf' calls' hd h; simp [gen_loop] at h
  | cons d rest ih =>
    intro buf calls ok buf' calls' hd h
    unfold gen_loop at h
    cases d with
    | none => exact absurd rfl (hd none (List.mem_cons_self _ _))
    | some bytes =>
      simp only [] at h
      split at h
      · simp only [Option.some.injEq, Prod.mk.injEq] at h
        exact h.1.symm
      · exact ih bytes (calls + 1) ok buf' calls'
          (fun d hdm => hd d (List.mem_cons_of_mem _ hdm)) h

theorem generate_no_draw_failure_no_neg3 (env : CurveEnv)
    (draws : List (Option (List Nat))) (pk pb : Option (List Nat))
    (c : Int) (pb0 rb0 : List Nat) (st : GenResult)
    (hdraws : ∀ d ∈ draws, d ≠ none)
    (h : secp256k1_wrapper_generate_keys env draws pk pb c pb0 rb0 = some st) :
    st.ret ≠ -3 := by
  intro hret
  unfold secp256k1_wrapper_generate_keys at h
  split at h
  · obtain rfl := Option.some.inj h; simp at hret
  · split at h
    · obtain rfl := Option.some.inj h; simp at hret
    · split at h
      · exact absurd h (by simp)
      · split at h
        · exact absurd rfl (hdraws none (List.mem_cons_self _ _))
        · split at h
          · obtain rfl := Option.some.inj h; simp at hret
          · split at h
            · exact absurd h (by simp)
            · rename_i hloop
              exact absurd
                (gen_loop_all_draws_ok_accepts env _ pb0 1 false _ _
                  (fun d hdm => hdraws d (List.mem_cons_of_mem _ hdm)) hloop)
                Bool.false_ne_true
            · split at h
              · obtain rfl := Option.some.inj h
                unfold gen_finish at hret
                split at hret
                · simp at hret
                · split at hret
                  · simp at hret
                  · simp at hret
              · exact absurd h (by simp)

/-- C3 (amended): for every caller-supplied private key that fails the
curve validity predicate, `secp256k1_wrapper_derive_pubkey` returns -5 —
the same code used for public-key creation and serialization failures,
not a distinct one; and on the generation path a validity rejection never
produces an error return: the candidate loop redraws on rejection, and
without a randomness failure `secp256k1_wrapper_generate_keys` never
returns -3 (no error return is attributable to a rejected candidate). -/
theorem derive_invalid_key_returns_neg5 (env : CurveEnv) (k b : List Nat)
    (c : Int) (bytes buf : List Nat) (calls : Nat)
    (ldraws draws : List (Option (List Nat))) (pk pb : Option (List Nat))
    (pb0 rb0 : List Nat) (st : GenResult) :
    (c = 0 ∨ c = 1 → env.ctx_create_ok = true → env.seckey_verify k = false →
      (secp256k1_wrapper_derive_pubkey env (some k) (some b) c).ret = -5) ∧
    (env.seckey_verify bytes = false →
      gen_loop env (some bytes :: ldraws) buf calls =
        gen_loop env ldraws bytes (calls + 1)) ∧
    ((∀ d ∈ draws, d ≠ none) →
      secp256k1_wrapper_generate_keys env draws pk pb c pb0 rb0 = some st →
      st.ret ≠ -3) := by
  refine ⟨?_, ?_, ?_⟩
  · intro hm hctx hk
    have hm2 : ¬(c ≠ 0 ∧ c ≠ 1) := by rcases hm with h | h <;> simp [h]
    simp [secp256k1_wrapper_derive_pubkey, hm2, hctx, hk]
  · intro hb
    conv_lhs => rw [gen_loop]
    simp [hb]
  · intro hdraws h
    exact generate_no_draw_failure_no_neg3 env draws pk pb c pb0 rb0 st hdraws h

theorem derive_invalid_key_returns_neg5_witness :
    (secp256k1_wrapper_derive_pubkey envOk (some zeros32) (some key1) 1).ret = -5 ∧
    gen_loop envOk (some zeros32 :: [some key1]) candAA 1 =
      gen_loop envOk [some key1] zeros32 2 ∧
    stGenOk.ret ≠ -3 :=
  ⟨(derive_invalid_key_returns_neg5 envOk zeros32 key1 1 zeros32 candAA 1
      [some key1] [some seedA, some key1] (some zeros32) (some zeros32)
      zeros32 zeros32 stGenOk).1 (Or.inr rfl) rfl (by decide),
   (derive_invalid_key_returns_neg5 envOk zeros32 key1 1 zeros32 candAA 1
      [some key1] [some seedA, some key1] (some zeros32) (some zeros32)
      zeros32 zeros32 stGenOk).2.1 (by decide),
   (derive_invalid_key_returns_neg5 envOk zeros32 key1 1 zeros32 candAA 1
      [some key1] [some seedA, some key1] (some zeros32) (some zeros32)
      zeros32 zeros32 stGenOk).2.2 (by decide) (by decide)⟩

/-- C7: on the Linux/FreeBSD branch of `secp256k1_wrapper_fill_random`,
an ENOSYS failure of `getrandom` falls back to the /dev/urandom read
loop (which returns 1 once the buffer is full, 0 on a read error ≤ 0,
and otherwise accumulates partial reads), while any other `getrandom`
failure returns 0 with no fallback. -/
theorem fill_random_enosys_fallback (e : Nat) (open_ok : Bool)
    (reads rest : List Int) (r : Int) (size off : Nat) :
    (e ≠ ENOSYS → secp256k1_wrapper_fill_random (.err e) open_ok reads size = some 0) ∧
    (secp256k1_wrapper_fill_random (.err ENOSYS) false reads size = some 0) ∧
    (secp256k1_wrapper_fill_random (.err ENOSYS) true reads size =
      urandom_loop reads 0 size) ∧
    (¬ off < size → urandom_loop (r :: rest) off size = some 1) ∧
    (off < size → r ≤ 0 → urandom_loop (r :: rest) off size = some 0) ∧
    (off < size → 0 < r →
      urandom_loop (r :: rest) off size = urandom_loop rest (off + r.toNat) size) := by
  refine ⟨?_, ?_, ?_, ?_, ?_, ?_⟩
  · intro he; simp [secp256k1_wrapper_fill_random, he]
  · simp [secp256k1_wrapper_fill_random]
  · simp [secp256k1_wrapper_fill_random]
  · intro ho; simp [urandom_loop, ho]
  · intro ho hr; simp [urandom_loop, ho, hr]
  · intro ho hr; simp [urandom_loop, ho, not_le.mpr hr]

theorem fill_random_enosys_fallback_witness :
    secp256k1_wrapper_fill_random (.err 5) true [(4 : Int)] 4 = some 0 ∧
    secp256k1_wrapper_fill_random (.err ENOSYS) true [(4 : Int)] 4 =
      urandom_loop [(4 : Int)] 0 4 ∧
    urandom_loop [(0 : Int)] 0 4 = some 0 :=
  ⟨(fill_random_enosys_fallback 5 true [(4 : Int)] [] 4 4 0).1 (by decide),
   (fill_random_enosys_fallback ENOSYS true [(4 : Int)] [] 4 4 0).2.2.1,
   (fill_random_enosys_fallback 5 true [] [] 0 4 0).2.2.2.2.1 (by decide) (by decide)⟩

/-- C9: `secp256k1_wrapper_generate_keys` writes the caller's
`privkey_out` buffer only on the all-succeeded path; on every error
return (-1, -2, -3, -5) the buffer's contents at return equal its
contents at entry. -/
theorem generate_keys_error_preserves_privkey_out (env : CurveEnv)
    (draws : List (Option (List Nat))) (pk pb : Option (List Nat))
    (c : Int) (pb0 rb0 : List Nat) (st : GenResult)
    (h : secp256k1_wrapper_generate_keys env draws pk pb c pb0 rb0 = some st)
    (h0 : st.ret ≠ 0) :
    st.privkey_out = pk := by
  unfold secp256k1_wrapper_generate_keys at h
  split at h
  · obtain rfl := Option.some.inj h; rfl
  · split at h
    · obtain rfl := Option.some.inj h; rfl
    · split at h
      · exact absurd h (by simp)
      · split at h
        · obtain rfl := Option.some.inj h; rfl
        · split at h
          · obtain rfl := Option.some.inj h; rfl
          · split at h
            · exact absurd h (by simp)
            · obtain rfl := Option.some.inj h; rfl
            · split at h
              · rename_i k calls hloop pk0 pb0' hpk hpb
                obtain rfl := Option.some.inj h
                revert h0
                unfold gen_finish
                split
                · intro _; rfl
                · split
                  · intro _; rfl
                  · intro h0; exact absurd rfl h0
              · exact absurd h (by simp)

theorem generate_keys_error_preserves_privkey_out_witness :
    stGenRandFail.privkey_out = some candAA :=
  generate_keys_error_preserves_privkey_out envOk [none] (some candAA)
    (some zeros32) 0 zeros32 zeros32 stGenRandFail (by decide) (by decide)

/-- C10: in both `secp256k1_wrapper_generate_keys` and
`secp256k1_wrapper_derive_pubkey`, a failure of
`secp256k1_ec_pubkey_create` and a failure of
`secp256k1_ec_pubkey_serialize` return the same caller-visible code -5,
so the two failure kinds are indistinguishable to the caller. -/
theorem pubkey_failure_codes_indistinguishable (env : CurveEnv)
    (seed k pk0 pb0 b : List Nat) (c : Int)
    (hm : c = 0 ∨ c = 1) (hctx : env.ctx_create_ok = true)
    (hrand : env.ctx_randomize seed = true)
    (hk : env.seckey_verify k = true) :
    (env.pubkey_create k = none →
      (secp256k1_wrapper_generate_keys env [some seed, some k]
          (some pk0) (some pb0) c pk0 pb0).map GenResult.ret = some (-5) ∧
      (secp256k1_wrapper_derive_pubkey env (some k) (some b) c).ret = -5) ∧
    (∀ P, env.pubkey_create k = some P →
      env.pubkey_serialize P (c != 0) = none →
      (secp256k1_wrapper_generate_keys env [some seed, some k]
          (some pk0) (some pb0) c pk0 pb0).map GenResult.ret = some (-5) ∧
      (secp256k1_wrapper_derive_pubkey env (some k) (some b) c).ret = -5) := by
  have hm2 : ¬(c ≠ 0 ∧ c ≠ 1) := by rcases hm with h | h <;> simp [h]
  constructor
  · intro hP
    constructor
    · simp [secp256k1_wrapper_generate_keys, gen_loop, gen_finish,
            hm2, hctx, hrand, hk, hP]
    · simp [secp256k1_wrapper_derive_pubkey, hm2, hctx, hk, hP]
  · intro P hP hs
    constructor
    · simp [secp256k1_wrapper_generate_keys, gen_loop, gen_finish,
            hm2, hctx, hrand, hk, hP, hs]
    · simp [secp256k1_wrapper_derive_pubkey, hm2, hctx, hk, hP, hs]

theorem pubkey_failure_codes_indistinguishable_witness :
    ((secp256k1_wrapper_generate_keys envCreateFail [some seedA, some key1]
        (some zeros32) (some zeros32) 1 zeros32 zeros32).map GenResult.ret = some (-5) ∧
     (secp256k1_wrapper_derive_pubkey envCreateFail (some key1) (some zeros32) 1).ret = -5) ∧
    ((secp256k1_wrapper_generate_keys envSerFail [some seedA, some key1]
        (some zeros32) (some zeros32) 1 zeros32 zeros32).map GenResult.ret = some (-5) ∧
     (secp256k1_wrapper_derive_pubkey envSerFail (some key1) (some zeros32) 1).ret = -5) :=
  ⟨(pubkey_failure_codes_indistinguishable envCreateFail seedA key1 zeros32
      zeros32 zeros32 1 (Or.inr rfl) rfl rfl rfl).1 rfl,
   (pubkey_failure_codes_indistinguishable envSerFail seedA key1 zeros32
      zeros32 zeros32 1 (Or.inr rfl) rfl rfl rfl).2 0 rfl rfl⟩

end Secp256k1Wrapper
